import Mathlib

/-!
# Shallow embedding of the `flip_clock-rs` animation and layout core

This file embeds, in Lean, the state machines and pure layout/progress
computations of the flip-clock screensaver:

* `src/src/config.rs` — `AppConfig` with its serde per-field defaults;
* `src/src/main.rs` — `ClockState` and its `update`, `DepartureBoardState`
  (`RowState`, `CITIES`) with `new`/`update`, and the pure parts of
  `draw_clock_face` / `draw_departure_board` (layout geometry, animation
  progress, the per-cell progress override);
* `src/rust_flip-rs/src/main.rs` — the `TimeState` machine of
  `run_screensaver` and its per-digit progress.

Floating-point values (`f32`/`f64` times, sizes, fractions) are modelled as
exact rationals `ℚ`; machine strings as Lean `String`.  Wall-clock reads
(`get_time()`, `Utc::now()`, `Local::now()`) are passed in as explicit
parameters, so every stateful Rust method becomes a pure state-transition
function.
-/

/-- A drawing rectangle, as `macroquad::prelude::Rect` (fields `x y w h`). -/
structure Rect where
  x : ℚ
  y : ℚ
  w : ℚ
  h : ℚ
  deriving DecidableEq

/-- `AppConfig` from `src/src/config.rs` (colors kept as RGB triples). -/
structure AppConfig where
  selected_monitor : String
  use_12h_format : Bool
  show_seconds : Bool
  pixelated : Bool
  scale : ℚ
  spacing : ℚ
  corner_radius : ℚ
  bg_color : ℚ × ℚ × ℚ
  card_color : ℚ × ℚ × ℚ
  text_color : ℚ × ℚ × ℚ
  animation_speed : ℕ
  deriving DecidableEq

/-- `fn default_true() -> bool { true }` from `config.rs`. -/
def default_true : Bool := true

/-- `fn default_false() -> bool { false }` from `config.rs`. -/
def default_false : Bool := false

/-- `fn default_scale() -> f32 { 0.85 }` from `config.rs`. -/
def default_scale : ℚ := 0.85

/-- `fn default_spacing() -> f32 { 0.04 }` from `config.rs`. -/
def default_spacing : ℚ := 0.04

/-- `fn default_corner_radius() -> f32 { 8.0 }` from `config.rs`. -/
def default_corner_radius : ℚ := 8.0

/-- `fn default_bg_color()` from `config.rs`. -/
def default_bg_color : ℚ × ℚ × ℚ := (0.125, 0.125, 0.125)

/-- `fn default_card_color()` from `config.rs`. -/
def default_card_color : ℚ × ℚ × ℚ := (0.165, 0.165, 0.165)

/-- `fn default_text_color()` from `config.rs`. -/
def default_text_color : ℚ × ℚ × ℚ := (0.898, 0.898, 0.898)

/-- `fn default_animation_speed() -> u64 { 600 }` from `config.rs`. -/
def default_animation_speed : ℕ := 600

/-- A configuration snapshot as it sits on disk: every field that carries a
`#[serde(default = ...)]` attribute in `config.rs` may be absent
(`none`).  `selected_monitor` has no serde default in the source, so it is
kept mandatory here. -/
structure PartialAppConfig where
  selected_monitor : String
  use_12h_format : Option Bool
  show_seconds : Option Bool
  pixelated : Option Bool
  scale : Option ℚ
  spacing : Option ℚ
  corner_radius : Option ℚ
  bg_color : Option (ℚ × ℚ × ℚ)
  card_color : Option (ℚ × ℚ × ℚ)
  text_color : Option (ℚ × ℚ × ℚ)
  animation_speed : Option ℕ
  deriving DecidableEq

/-- Serde deserialization of `AppConfig`: each missing field falls back to
its `#[serde(default = ...)]` function from `config.rs`. -/
def AppConfig.fromPartial (p : PartialAppConfig) : AppConfig where
  selected_monitor := p.selected_monitor
  use_12h_format := p.use_12h_format.getD default_false
  show_seconds := p.show_seconds.getD default_true
  pixelated := p.pixelated.getD default_false
  scale := p.scale.getD default_scale
  spacing := p.spacing.getD default_spacing
  corner_radius := p.corner_radius.getD default_corner_radius
  bg_color := p.bg_color.getD default_bg_color
  card_color := p.card_color.getD default_card_color
  text_color := p.text_color.getD default_text_color
  animation_speed := p.animation_speed.getD default_animation_speed

/-- `ClockState` from `src/src/main.rs` lines 154-161.  The Rust arrays
`[String; 4]` / `[String; 2]` are modelled as lists compared whole, exactly
as Rust array equality compares componentwise. -/
structure ClockState where
  current_digits : List String
  current_seconds : List String
  previous_digits : List String
  previous_seconds : List String
  animation_start : Option ℚ
  deriving DecidableEq

/-- `ClockState::update` (`src/src/main.rs` lines 178-208) with the digit
strings computed from the wall clock passed in as `newDigits`/`newSeconds`
and `get_time()` passed in as `now`.  If the freshly computed values differ
from the current ones AND no animation is in flight, the previous values
are saved, the new values installed, and the animation started; otherwise
the state is returned unchanged. -/
def ClockState.update (s : ClockState) (newDigits newSeconds : List String)
    (now : ℚ) : ClockState :=
  if newDigits ≠ s.current_digits ∨ newSeconds ≠ s.current_seconds then
    if s.animation_start = none then
      { current_digits := newDigits
        current_seconds := newSeconds
        previous_digits := s.current_digits
        previous_seconds := s.current_seconds
        animation_start := some now }
    else s
  else s

/-- The `hour = hour % 12; if hour == 0 { hour = 12 }` fold performed by
`ClockState::update` in 12-hour mode, which is also the value chrono's
`hour12()` yields for the departure board rows. -/
def hour12 (hour : ℕ) : ℕ :=
  let h := hour % 12
  if h = 0 then 12 else h

/-- The face-level animation progress computed at the top of
`draw_clock_face` (`src/src/main.rs` lines 884-896): `0.0` when
`animation_start` is `None`, otherwise elapsed milliseconds over the
configured duration, clamped above at `1.0` (the source writes
`if progress >= 1.0 { progress = 1.0; ... }`; there is no clamp below). -/
def clockFaceRawProgress (anim : Option ℚ) (now duration : ℚ) : ℚ :=
  match anim with
  | none => 0
  | some start =>
    let p := (now - start) * 1000 / duration
    if 1 ≤ p then 1 else p

/-- The settle side effect of `draw_clock_face` lines 890-895: when the
in-flight animation has reached progress `1.0`, `animation_start` is
cleared and `previous` snaps to `current`. -/
def clockFaceSettle (s : ClockState) (now duration : ℚ) : ClockState :=
  match s.animation_start with
  | none => s
  | some start =>
    let p := (now - start) * 1000 / duration
    if 1 ≤ p then
      { s with animation_start := none
               previous_digits := s.current_digits
               previous_seconds := s.current_seconds }
    else s

/-- The per-digit progresses passed to `draw_single_flip_card` by the digit
loop of `draw_clock_face` (lines 904-908): after the settle step, each cell
whose digit equals its previous digit gets `1.0`, the others get the
face-level progress. -/
def drawClockCellProgresses (s : ClockState) (now duration : ℚ) : List ℚ :=
  List.zipWith
    (fun d pd => if d = pd then (1 : ℚ)
      else clockFaceRawProgress s.animation_start now duration)
    (clockFaceSettle s now duration).current_digits
    (clockFaceSettle s now duration).previous_digits

/-- Same as `drawClockCellProgresses` for the seconds loop of
`draw_clock_face` (lines 921-923). -/
def drawClockSecondsProgresses (s : ClockState) (now duration : ℚ) : List ℚ :=
  List.zipWith
    (fun d pd => if d = pd then (1 : ℚ)
      else clockFaceRawProgress s.animation_start now duration)
    (clockFaceSettle s now duration).current_seconds
    (clockFaceSettle s now duration).previous_seconds

/-- `TimeState` from `src/rust_flip-rs/src/main.rs` lines 12-16;
digits are `u32`, modelled as `ℕ`. -/
structure TimeState where
  current_digits : List ℕ
  previous_digits : List ℕ
  animation_start : Option ℚ
  deriving DecidableEq

/-- The per-frame update of `run_screensaver`
(`src/rust_flip-rs/src/main.rs` lines 207-211): whenever the freshly
computed digits differ from the current ones, previous snaps to current and
the animation restarts — with no idle check. -/
def TimeState.update (s : TimeState) (newDigits : List ℕ) (now : ℚ) : TimeState :=
  if newDigits ≠ s.current_digits then
    { current_digits := newDigits
      previous_digits := s.current_digits
      animation_start := some now }
  else s

/-- The progress computation of `run_screensaver` (lines 213-224): duration
is the hard-coded `600.0` ms. -/
def screensaverProgress (anim : Option ℚ) (now : ℚ) : ℚ :=
  match anim with
  | none => 0
  | some start =>
    let p := (now - start) * 1000 / 600
    if 1 ≤ p then 1 else p

/-- The settle side effect of `run_screensaver` lines 218-223. -/
def screensaverSettle (s : TimeState) (now : ℚ) : TimeState :=
  match s.animation_start with
  | none => s
  | some start =>
    let p := (now - start) * 1000 / 600
    if 1 ≤ p then
      { s with animation_start := none, previous_digits := s.current_digits }
    else s

/-- The per-digit progresses handed to `draw_card` by the digit loop of
`run_screensaver` (lines 228-234): a digit that did not change is treated
as static (`1.0`). -/
def screensaverCellProgresses (s : TimeState) (now : ℚ) : List ℚ :=
  List.zipWith
    (fun d pd => if d = pd then (1 : ℚ)
      else screensaverProgress s.animation_start now)
    (screensaverSettle s now).current_digits
    (screensaverSettle s now).previous_digits

/-- `CityData` from `src/src/main.rs` lines 213-217. -/
structure CityData where
  name : String
  offset_hours : ℤ
  offset_minutes : ℤ
  deriving DecidableEq

/-- The static `CITIES` table (`src/src/main.rs` lines 219-230). -/
def CITIES : List CityData :=
  [ ⟨("HAWAII"), -10, 0⟩
  , ⟨("LOS ANGELES"), -8, 0⟩
  , ⟨("NEW YORK (EST)"), -5, 0⟩
  , ⟨("UTC"), 0, 0⟩
  , ⟨("LONDON"), 0, 0⟩
  , ⟨("STOCKHOLM"), 1, 0⟩
  , ⟨("PARIS"), 1, 0⟩
  , ⟨("HANOI"), 7, 0⟩
  , ⟨("BRISBANE"), 10, 0⟩
  , ⟨("WELLINGTON"), 12, 0⟩ ]

/-- `RowState` from `src/src/main.rs` lines 239-251. -/
structure RowState where
  time_str : String
  prev_time_str : String
  ampm : String
  prev_ampm : String
  day : String
  prev_day : String
  anim_start : Option ℚ
  deriving DecidableEq

/-- The row a `DepartureBoardState` is born with
(`DepartureBoardState::new`, lines 256-266): placeholder strings and no
animation. -/
def initRow : RowState where
  time_str := ("  :  ")
  prev_time_str := ("  :  ")
  ampm := ("  ")
  prev_ampm := ("  ")
  day := ("   ")
  prev_day := ("   ")
  anim_start := none

/-- The freshly formatted display values `DepartureBoardState::update`
computes for one city (lines 285-298): `time_str`, `ampm` and `day`. -/
structure ComputedRow where
  time_str : String
  ampm : String
  day : String
  deriving DecidableEq

/-- The per-row body of `DepartureBoardState::update`
(`src/src/main.rs` lines 300-321), with the freshly computed strings `c`
and `get_time()` passed in as `now`.  Mirrors the source exactly: when any
of the three values changed, a running animation first snaps its `prev_*`
fields to the current values (`anim_start` untouched); then, only if
`anim_start` is `none`, the new values are installed and a fresh animation
started. -/
def rowUpdate (c : ComputedRow) (now : ℚ) (r : RowState) : RowState :=
  if r.time_str ≠ c.time_str ∨ r.ampm ≠ c.ampm ∨ r.day ≠ c.day then
    let r1 : RowState :=
      if r.anim_start.isSome then
        { r with prev_time_str := r.time_str
                 prev_ampm := r.ampm
                 prev_day := r.day }
      else r
    if r1.anim_start = none then
      { r1 with prev_time_str := r1.time_str
                prev_ampm := r1.ampm
                prev_day := r1.day
                time_str := c.time_str
                ampm := c.ampm
                day := c.day
                anim_start := some now }
    else r1
  else r

/-- `DepartureBoardState` from `src/src/main.rs` lines 232-237. -/
structure DepartureBoardState where
  rows : List RowState
  last_update : ℚ
  deriving DecidableEq

/-- `DepartureBoardState::update` (`src/src/main.rs` lines 278-323), with
`get_time()` passed as `now` and the strings computed from `Utc::now()`
per city passed as `vals` (one `ComputedRow` per entry of `CITIES`).  If
less than `0.1` seconds of wall time elapsed since `last_update`, the
method returns immediately and the state is unchanged; otherwise
`last_update` advances and every row is updated. -/
def DepartureBoardState.update (s : DepartureBoardState) (now : ℚ)
    (vals : List ComputedRow) : DepartureBoardState :=
  if now - s.last_update < 0.1 then s
  else
    { rows := List.zipWith (fun c r => rowUpdate c now r) vals s.rows
      last_update := now }

/-- The `prev = curr` snap performed at the end of
`DepartureBoardState::new` (lines 269-274) to avoid an initial flip. -/
def rowSnapPrev (r : RowState) : RowState :=
  { r with prev_time_str := r.time_str
           prev_ampm := r.ampm
           prev_day := r.day }

/-- `DepartureBoardState::new` (`src/src/main.rs` lines 254-276): one
placeholder row per city, `last_update = 0.0`, one initial `update`, then
`prev` fields snapped to the current ones. -/
def DepartureBoardState.newBoard (now : ℚ) (vals : List ComputedRow) :
    DepartureBoardState :=
  let s0 : DepartureBoardState :=
    { rows := CITIES.map (fun _ => initRow), last_update := 0 }
  let s1 := s0.update now vals
  { s1 with rows := s1.rows.map rowSnapPrev }

/-- `draw_departure_board` (`src/src/main.rs` lines 932-1041) takes the
rows by shared reference (`let rows = &state.rows;`) and only ever reads
them; its effect on the departure-board state is therefore the identity —
unlike `draw_clock_face`, it contains no settle step. -/
def drawDepartureBoardState (s : DepartureBoardState) : DepartureBoardState := s

/-- The per-row animation progress computed by `draw_departure_board`
(lines 984-991): `1.0` when `anim_start` is `None`, otherwise elapsed
milliseconds over the configured duration, clamped above at `1.0`
(`if p > 1.0 { 1.0 } else { p }`; again no clamp below). -/
def depRowProgress (anim : Option ℚ) (now duration : ℚ) : ℚ :=
  match anim with
  | none => 1
  | some start =>
    let p := (now - start) * 1000 / duration
    if 1 < p then 1 else p

/-- Right-align a string in a field of width `w`, padding with `c` — the
behaviour of Rust's `{:>2}` / `{:02}` format specifiers. -/
def padLeft (c : Char) (w : ℕ) (s : String) : String :=
  String.mk (List.replicate (w - s.length) c) ++ s

/-- The time string `format!("{:>2}:{:02}", hour_12, minute)` built by
`DepartureBoardState::update` (line 294). -/
def formatTime (h m : ℕ) : String :=
  padLeft ' ' 2 (toString h) ++ (":") ++ padLeft '0' 2 (toString m)

/-- The full `time_str` computed for a city from its local wall-clock hour
and minute: chrono's `hour12()` folds the hour into `1..=12`. -/
def computedTimeStr (hour minute : ℕ) : String :=
  formatTime (hour12 hour) minute

/-- `let base_card_height = sh * 0.4;` (`draw_clock_face`, line 858). -/
def clockBaseCardHeight (rect : Rect) : ℚ := rect.h * 0.4

/-- `let card_height = base_card_height * config.scale;` (line 859). -/
def clockCardHeight (config : AppConfig) (rect : Rect) : ℚ :=
  clockBaseCardHeight rect * config.scale

/-- `let card_width = card_height * 0.6;` (line 860). -/
def clockCardWidth (config : AppConfig) (rect : Rect) : ℚ :=
  clockCardHeight config rect * 0.6

/-- `let spacing = card_width * config.spacing;` (line 862). -/
def clockSpacing (config : AppConfig) (rect : Rect) : ℚ :=
  clockCardWidth config rect * config.spacing

/-- `let group_gap = spacing * 3.0;` (line 863). -/
def clockGroupGap (config : AppConfig) (rect : Rect) : ℚ :=
  clockSpacing config rect * 3

/-- `total_cards`: 4, plus 2 when seconds are shown (lines 866-874). -/
def clockTotalCards (config : AppConfig) : ℕ :=
  if config.show_seconds then 4 + 2 else 4

/-- `total_groups_gaps`: 1, plus 1 when seconds are shown. -/
def clockTotalGroupGaps (config : AppConfig) : ℕ :=
  if config.show_seconds then 1 + 1 else 1

/-- `total_spacing`: 2, plus 1 when seconds are shown. -/
def clockTotalSpacingCount (config : AppConfig) : ℕ :=
  if config.show_seconds then 2 + 1 else 2

/-- `total_width` (line 876). -/
def clockTotalWidth (config : AppConfig) (rect : Rect) : ℚ :=
  (clockTotalCards config : ℚ) * clockCardWidth config rect
    + (clockTotalSpacingCount config : ℚ) * clockSpacing config rect
    + (clockTotalGroupGaps config : ℚ) * clockGroupGap config rect

/-- `let start_x = rect.x + (sw - total_width) / 2.0;` (line 878). -/
def clockStartX (config : AppConfig) (rect : Rect) : ℚ :=
  rect.x + (rect.w - clockTotalWidth config rect) / 2

/-- `let start_y = rect.y + (sh - card_height) / 2.0;` (line 879). -/
def clockStartY (config : AppConfig) (rect : Rect) : ℚ :=
  rect.y + (rect.h - clockCardHeight config rect) / 2

/-- `let margin = 20.0 * config.scale;` (`draw_departure_board`, line 942). -/
def depMargin (config : AppConfig) : ℚ := 20 * config.scale

/-- `let available_h = rect.h - (margin * 2.0);` (line 943). -/
def depAvailableH (config : AppConfig) (rect : Rect) : ℚ :=
  rect.h - depMargin config * 2

/-- `let row_height = (available_h / num_rows).min(rect.h * 0.15 * config.scale);`
(line 944). -/
def depRowHeight (config : AppConfig) (rect : Rect) (numRows : ℕ) : ℚ :=
  min (depAvailableH config rect / (numRows : ℚ)) (rect.h * 0.15 * config.scale)

/-- `let card_height = row_height * 0.8;` (line 945). -/
def depCardHeight (config : AppConfig) (rect : Rect) (numRows : ℕ) : ℚ :=
  depRowHeight config rect numRows * 0.8

/-- `let card_width = card_height * 0.6;` (line 947). -/
def depCardWidth (config : AppConfig) (rect : Rect) (numRows : ℕ) : ℚ :=
  depCardHeight config rect numRows * 0.6

/-- `let spacing = card_width * 0.1;` (line 948). -/
def depSpacing (config : AppConfig) (rect : Rect) (numRows : ℕ) : ℚ :=
  depCardWidth config rect numRows * 0.1

/-- Well-formedness of a departure-board time string: exactly 5 characters
with the colon at index 2 (claim C10's invariant). -/
def TimeStrOK (s : String) : Prop :=
  s.length = 5 ∧ s.data.get? 2 = some ':'

instance : DecidablePred TimeStrOK := fun s =>
  inferInstanceAs (Decidable (s.length = 5 ∧ s.data.get? 2 = some ':'))

/-- The invariant lifted to a whole departure board: every row's `time_str`
and `prev_time_str` are well-formed. -/
def StateTimeOK (s : DepartureBoardState) : Prop :=
  ∀ r ∈ s.rows, TimeStrOK r.time_str ∧ TimeStrOK r.prev_time_str

/-! ## Helper lemmas -/

/-- `if p >= 1.0 { 1.0 } else { p }` is an upper clamp at `1`. -/
lemma ite_one_le_eq_min (p : ℚ) : (if 1 ≤ p then (1 : ℚ) else p) = min p 1 := by
  split_ifs with h
  · exact (min_eq_right h).symm
  · exact (min_eq_left (le_of_not_le h)).symm

/-- `if p > 1.0 { 1.0 } else { p }` is the same upper clamp at `1`. -/
lemma ite_one_lt_eq_min (p : ℚ) : (if 1 < p then (1 : ℚ) else p) = min p 1 := by
  split_ifs with h
  · exact (min_eq_right h.le).symm
  · exact (min_eq_left (le_of_not_lt h)).symm

/-- Elementwise reading of the per-cell progress list: zipping a list with
itself through the progress override always yields `1`. -/
lemma zipWith_ite_self_eq_one {α : Type} [DecidableEq α] (q : ℚ) :
    ∀ l : List α,
      ∀ p ∈ List.zipWith (fun a b => if a = b then (1 : ℚ) else q) l l, p = 1 := by
  intro l
  induction l with
  | nil => intro p hp; simp at hp
  | cons x xs ih =>
    intro p hp
    simp only [List.zipWith_cons_cons, List.mem_cons] at hp
    rcases hp with hp | hp
    · simp [hp]
    · exact ih p hp

/-- Inverting membership in a `zipWith`. -/
lemma exists_of_mem_zipWith {α β γ : Type} (f : α → β → γ) :
    ∀ (l1 : List α) (l2 : List β) (x : γ), x ∈ List.zipWith f l1 l2 →
      ∃ a b, a ∈ l1 ∧ b ∈ l2 ∧ x = f a b := by
  intro l1
  induction l1 with
  | nil => intro l2 x hx; simp at hx
  | cons a as ih =>
    intro l2 x hx
    cases l2 with
    | nil => simp at hx
    | cons b bs =>
      simp only [List.zipWith_cons_cons, List.mem_cons] at hx
      rcases hx with hx | hx
      · exact ⟨a, b, List.mem_cons_self a as, List.mem_cons_self b bs, hx⟩
      · obtain ⟨a', b', ha', hb', hx'⟩ := ih bs x hx
        exact ⟨a', b', List.mem_cons_of_mem a ha', List.mem_cons_of_mem b hb', hx'⟩

/-- The settle step of `draw_clock_face` either leaves the state unchanged
or, exactly when the raw progress has clamped to `1`, clears the animation
and snaps `previous` to `current`. -/
lemma clockFaceSettle_spec (s : ClockState) (now d : ℚ) :
    clockFaceSettle s now d = s ∨
      (clockFaceSettle s now d =
          { s with animation_start := none
                   previous_digits := s.current_digits
                   previous_seconds := s.current_seconds } ∧
        clockFaceRawProgress s.animation_start now d = 1) := by
  cases ha : s.animation_start with
  | none => left; simp [clockFaceSettle, ha]
  | some start =>
    by_cases hp : 1 ≤ (now - start) * 1000 / d
    · right
      constructor
      · simp [clockFaceSettle, ha, hp]
      · simp [clockFaceRawProgress, ha, hp]
    · left; simp [clockFaceSettle, ha, hp]

/-- Same statement for the settle step of `run_screensaver`. -/
lemma screensaverSettle_spec (s : TimeState) (now : ℚ) :
    screensaverSettle s now = s ∨
      (screensaverSettle s now =
          { s with animation_start := none
                   previous_digits := s.current_digits } ∧
        screensaverProgress s.animation_start now = 1) := by
  cases ha : s.animation_start with
  | none => left; simp [screensaverSettle, ha]
  | some start =>
    by_cases hp : 1 ≤ (now - start) * 1000 / 600
    · right
      constructor
      · simp [screensaverSettle, ha, hp]
      · simp [screensaverProgress, ha, hp]
    · left; simp [screensaverSettle, ha, hp]

/-- Master lemma for the clock-face digit loop: the progress handed to cell
`i` is `1` when the cell's digit did not change and the face progress
otherwise. -/
lemma drawClockCell_get (s : ClockState) (now d : ℚ) (i : ℕ) (c pd : String)
    (hc : s.current_digits.get? i = some c)
    (hp : s.previous_digits.get? i = some pd) :
    (drawClockCellProgresses s now d).get? i =
      some (if c = pd then 1 else clockFaceRawProgress s.animation_start now d) := by
  rcases clockFaceSettle_spec s now d with h | ⟨h, hr⟩
  · unfold drawClockCellProgresses
    rw [h]
    exact (List.get?_zipWith_eq_some _ _ _ _ _).mpr ⟨c, pd, hc, hp, rfl⟩
  · unfold drawClockCellProgresses
    rw [h]
    simp only [hr, ite_self]
    exact (List.get?_zipWith_eq_some _ _ _ _ _).mpr ⟨c, c, hc, hc, rfl⟩

/-- Master lemma for the clock-face seconds loop. -/
lemma drawClockSeconds_get (s : ClockState) (now d : ℚ) (i : ℕ) (c pd : String)
    (hc : s.current_seconds.get? i = some c)
    (hp : s.previous_seconds.get? i = some pd) :
    (drawClockSecondsProgresses s now d).get? i =
      some (if c = pd then 1 else clockFaceRawProgress s.animation_start now d) := by
  rcases clockFaceSettle_spec s now d with h | ⟨h, hr⟩
  · unfold drawClockSecondsProgresses
    rw [h]
    exact (List.get?_zipWith_eq_some _ _ _ _ _).mpr ⟨c, pd, hc, hp, rfl⟩
  · unfold drawClockSecondsProgresses
    rw [h]
    simp only [hr, ite_self]
    exact (List.get?_zipWith_eq_some _ _ _ _ _).mpr ⟨c, c, hc, hc, rfl⟩

/-- Master lemma for the digit loop of `run_screensaver`. -/
lemma screensaverCell_get (s : TimeState) (now : ℚ) (i : ℕ) (c pd : ℕ)
    (hc : s.current_digits.get? i = some c)
    (hp : s.previous_digits.get? i = some pd) :
    (screensaverCellProgresses s now).get? i =
      some (if c = pd then 1 else screensaverProgress s.animation_start now) := by
  rcases screensaverSettle_spec s now with h | ⟨h, hr⟩
  · unfold screensaverCellProgresses
    rw [h]
    exact (List.get?_zipWith_eq_some _ _ _ _ _).mpr ⟨c, pd, hc, hp, rfl⟩
  · unfold screensaverCellProgresses
    rw [h]
    simp only [hr, ite_self]
    exact (List.get?_zipWith_eq_some _ _ _ _ _).mpr ⟨c, c, hc, hc, rfl⟩

/-! ## Claims -/

/-- A departure-board row mid-flip: an animation started at time `0` is in
flight (`anim_start = some 0`), the previous minute string still differs
from the current one. -/
def c1Row : RowState :=
  { time_str := ("12:34"), prev_time_str := ("12:33")
    ampm := ("PM"), prev_ampm := ("PM")
    day := ("MON"), prev_day := ("MON")
    anim_start := some 0 }

/-- The freshly computed values one minute later. -/
def c1New : ComputedRow := { time_str := ("12:35"), ampm := ("PM"), day := ("MON") }

/-- A clock state mid-flip: animation in flight, last digit still flipping
from 3 to 4. -/
def c1Clock : ClockState :=
  { current_digits := [("1"), ("2"), ("3"), ("4")]
    current_seconds := [("0"), ("0")]
    previous_digits := [("1"), ("2"), ("3"), ("3")]
    previous_seconds := [("0"), ("0")]
    animation_start := some 0 }

/-- C1: the code does NOT implement the claimed force-settle-then-restart
rule.  At the concrete mid-animation row `c1Row`, `rowUpdate` with the new
value `12:35` at `now = 5` snaps `prev_time_str` to the current value but
leaves `time_str = "12:34"` (the new value is never installed, because the
install branch re-tests `anim_start.is_none()` after the settle branch left
`anim_start` untouched) and keeps the stale `anim_start = some 0` instead
of a fresh one.  Likewise `ClockState::update` during an in-flight
animation is a complete no-op even for a differing value. -/
theorem c1_inflight_change_is_dropped :
    (rowUpdate c1New 5 c1Row).time_str = ("12:34") ∧
    (rowUpdate c1New 5 c1Row).time_str ≠ c1New.time_str ∧
    (rowUpdate c1New 5 c1Row).anim_start = some 0 ∧
    (rowUpdate c1New 5 c1Row).prev_time_str = ("12:34") ∧
    ClockState.update c1Clock [("1"), ("2"), ("3"), ("6")] [("0"), ("0")] 5 = c1Clock := by
  decide

/-- C2: in both draw routines, a cell whose own value did not change
between `previous` and `current` renders with progress exactly `1.0` —
whatever the face-level `animation_start` is — and only a cell whose own
values differ receives the elapsed-time progress. -/
theorem c2_unchanged_cell_renders_complete (s : ClockState) (now duration : ℚ)
    (i : ℕ) (c pd : String)
    (hc : s.current_digits.get? i = some c)
    (hp : s.previous_digits.get? i = some pd) :
    (c = pd → (drawClockCellProgresses s now duration).get? i = some 1) ∧
    (c ≠ pd → (drawClockCellProgresses s now duration).get? i =
      some (clockFaceRawProgress s.animation_start now duration)) ∧
    ∀ (t : TimeState) (j a b : ℕ),
      t.current_digits.get? j = some a →
      t.previous_digits.get? j = some b →
      (a = b → (screensaverCellProgresses t now).get? j = some 1) ∧
      (a ≠ b → (screensaverCellProgresses t now).get? j =
        some (screensaverProgress t.animation_start now)) := by
  refine ⟨?_, ?_, ?_⟩
  · intro h
    rw [drawClockCell_get s now duration i c pd hc hp, if_pos h]
  · intro h
    rw [drawClockCell_get s now duration i c pd hc hp, if_neg h]
  · intro t j a b ha hb
    constructor
    · intro h
      rw [screensaverCell_get t now j a b ha hb, if_pos h]
    · intro h
      rw [screensaverCell_get t now j a b ha hb, if_neg h]

/-- A clock face whose `animation_start` is `Some` (sibling cell 1 is
animating from 1 to 0) while cell 0 did not change. -/
def c2wState : ClockState :=
  { current_digits := [("3"), ("0"), ("0"), ("0")]
    current_seconds := [("0"), ("0")]
    previous_digits := [("3"), ("1"), ("0"), ("0")]
    previous_seconds := [("0"), ("0")]
    animation_start := some 0 }

/-- Witness for C2 at a concrete mid-animation state. -/
theorem c2_unchanged_cell_renders_complete_witness :
    (drawClockCellProgresses c2wState 7 600).get? 0 = some 1 :=
  (c2_unchanged_cell_renders_complete c2wState 7 600 0 ("3") ("3") rfl rfl).1 rfl

/-- C3 counterexample: the clock-face progress computation
(`draw_clock_face` lines 884-896) yields `0.0` — not the claimed `1.0` —
when `animation_start` is `None`. -/
theorem c3_idle_clock_progress_is_zero :
    clockFaceRawProgress none 5 600 = 0 ∧ clockFaceRawProgress none 5 600 ≠ 1 := by
  refine ⟨rfl, ?_⟩
  intro h
  rw [show clockFaceRawProgress none 5 600 = 0 from rfl] at h
  norm_num at h

/-- C3 (amended): when idle the departure-board computation returns `1.0`
while the clock-face computation returns `0.0`; when animating both
computations agree and equal `(now − animation_start)·1000 / duration`
clamped above at `1.0`, which is monotonically non-decreasing in `now` and
lies in `[0, 1]` whenever the duration is positive and `now` is at or after
`animation_start`. -/
theorem c3_progress_clamped_monotone (start now now' duration : ℚ)
    (hd : 0 < duration) (h1 : start ≤ now) (h2 : now ≤ now') :
    clockFaceRawProgress none now duration = 0 ∧
    depRowProgress none now duration = 1 ∧
    clockFaceRawProgress (some start) now duration =
      depRowProgress (some start) now duration ∧
    0 ≤ depRowProgress (some start) now duration ∧
    depRowProgress (some start) now duration ≤ 1 ∧
    depRowProgress (some start) now duration ≤
      depRowProgress (some start) now' duration := by
  have e1 : ∀ n : ℚ, depRowProgress (some start) n duration =
      min ((n - start) * 1000 / duration) 1 := by
    intro n
    simp only [depRowProgress]
    exact ite_one_lt_eq_min _
  have e2 : clockFaceRawProgress (some start) now duration =
      min ((now - start) * 1000 / duration) 1 := by
    simp only [clockFaceRawProgress]
    exact ite_one_le_eq_min _
  refine ⟨rfl, rfl, ?_, ?_, ?_, ?_⟩
  · rw [e2, e1]
  · rw [e1]
    refine le_min ?_ (by norm_num)
    exact div_nonneg (mul_nonneg (sub_nonneg.mpr h1) (by norm_num)) hd.le
  · rw [e1]
    exact min_le_right _ _
  · rw [e1, e1]
    refine min_le_min ?_ le_rfl
    exact (div_le_div_iff_of_pos_right hd).mpr
      (mul_le_mul_of_nonneg_right (sub_le_sub_right h2 start) (by norm_num))

/-- Witness for C3 at `start = 0`, `now = 3/10`, `now' = 10`,
`duration = 600`. -/
theorem c3_progress_clamped_monotone_witness :
    clockFaceRawProgress none (3/10) 600 = 0 ∧
    depRowProgress none (3/10) 600 = 1 ∧
    clockFaceRawProgress (some 0) (3/10) 600 = depRowProgress (some 0) (3/10) 600 ∧
    0 ≤ depRowProgress (some 0) (3/10) 600 ∧
    depRowProgress (some 0) (3/10) 600 ≤ 1 ∧
    depRowProgress (some 0) (3/10) 600 ≤ depRowProgress (some 0) 10 600 :=
  c3_progress_clamped_monotone 0 (3/10) 10 600 (by norm_num) (by norm_num) (by norm_num)

/-- A tall, narrow drawable rectangle at the origin. -/
def c4Rect : Rect := { x := 0, y := 0, w := 100, h := 1000 }

/-- An in-range configuration: `scale = 1.0 ∈ [0.2, 1.0]`,
`spacing = 0.0 ∈ [0, 0.1]`, seconds shown. -/
def c4Config : AppConfig :=
  { selected_monitor := ("")
    use_12h_format := false
    show_seconds := true
    pixelated := false
    scale := 1
    spacing := 0
    corner_radius := 8
    bg_color := (0.125, 0.125, 0.125)
    card_color := (0.165, 0.165, 0.165)
    text_color := (0.898, 0.898, 0.898)
    animation_speed := 600 }

/-- C4 counterexample: on the tall narrow rectangle `c4Rect` (100 × 1000)
with the in-range configuration `c4Config`, the clock-face layout overflows
the drawable width — `start_x + total_width = 770 > 100 = drawable.width` —
so the claimed inequality fails for that drawable rectangle. -/
theorem c4_narrow_surface_overflows :
    clockStartX c4Config c4Rect + clockTotalWidth c4Config c4Rect = 770 ∧
    ¬ (clockStartX c4Config c4Rect + clockTotalWidth c4Config c4Rect ≤ c4Rect.w) := by
  norm_num [clockStartX, clockTotalWidth, clockTotalCards, clockTotalSpacingCount,
    clockTotalGroupGaps, clockCardWidth, clockCardHeight, clockBaseCardHeight,
    clockSpacing, clockGroupGap, c4Config, c4Rect]

/-- C4 (amended): for every drawable rectangle and configuration the block
is horizontally centered exactly (left margin = right margin), and
`start_x + total_content_width` stays within the right edge of the drawable
rectangle precisely when `total_content_width ≤ drawable.width`. -/
theorem c4_layout_centered_and_fits (config : AppConfig) (rect : Rect) :
    (clockStartX config rect + clockTotalWidth config rect ≤ rect.x + rect.w ↔
      clockTotalWidth config rect ≤ rect.w) ∧
    clockStartX config rect - rect.x =
      (rect.x + rect.w) - (clockStartX config rect + clockTotalWidth config rect) := by
  constructor
  · constructor
    · intro h
      rw [clockStartX] at h
      linarith
    · intro h
      rw [clockStartX]
      linarith
  · rw [clockStartX]
    ring

/-- A 1920×1080 surface at the origin. -/
def c5Rect : Rect := { x := 0, y := 0, w := 1920, h := 1080 }

/-- The default configuration (`AppConfig::default()` in `config.rs`). -/
def c5Config : AppConfig :=
  { selected_monitor := ("")
    use_12h_format := false
    show_seconds := true
    pixelated := false
    scale := 0.85
    spacing := 0.04
    corner_radius := 8
    bg_color := (0.125, 0.125, 0.125)
    card_color := (0.165, 0.165, 0.165)
    text_color := (0.898, 0.898, 0.898)
    animation_speed := 600 }

/-- C5 counterexample: on a concrete 1920×1080 surface with the default
configuration, the departure-board letter-card uses exactly the aspect
ratio 0.6 — the same as the clock digits, not a smaller one — and its card
height is not `drawable.height · 0.4 · scale` either. -/
theorem c5_departure_aspect_not_smaller :
    depCardWidth c5Config c5Rect 10 = depCardHeight c5Config c5Rect 10 * 0.6 ∧
    ¬ (depCardWidth c5Config c5Rect 10 < depCardHeight c5Config c5Rect 10 * 0.6) ∧
    0 < depCardHeight c5Config c5Rect 10 ∧
    depCardHeight c5Config c5Rect 10 ≠ c5Rect.h * 0.4 * c5Config.scale := by
  norm_num [depCardWidth, depCardHeight, depRowHeight, depAvailableH, depMargin,
    c5Config, c5Rect]

/-- C5 (amended): the clock-face layout computes
`card_height = drawable.height · 0.4 · scale`,
`card_width = card_height · 0.6`, `spacing = card_width · spacing_fraction`
and `group_gap = spacing · 3`; the departure board uses the same 0.6 aspect
ratio on its own smaller card height (`row_height · 0.8`) and a fixed
`spacing = card_width · 0.1`. -/
theorem c5_layout_formulas (config : AppConfig) (rect : Rect) (numRows : ℕ) :
    clockCardHeight config rect = rect.h * 0.4 * config.scale ∧
    clockCardWidth config rect = clockCardHeight config rect * 0.6 ∧
    clockSpacing config rect = clockCardWidth config rect * config.spacing ∧
    clockGroupGap config rect = clockSpacing config rect * 3 ∧
    depCardWidth config rect numRows = depCardHeight config rect numRows * 0.6 ∧
    depSpacing config rect numRows = depCardWidth config rect numRows * 0.1 ∧
    depCardHeight config rect numRows = depRowHeight config rect numRows * 0.8 := by
  refine ⟨?_, rfl, rfl, rfl, rfl, rfl, rfl⟩
  rw [clockCardHeight, clockBaseCardHeight]

/-- C6: `DepartureBoardState::update` is rate-limited — called again less
than 0.1 s of wall time after `last_update`, it returns immediately and the
whole state (every row's `time_str`, `ampm`, `day`, their previous values,
`anim_start`, and `last_update` itself) is unchanged. -/
theorem c6_rate_limited_update_noop (s : DepartureBoardState) (now : ℚ)
    (vals : List ComputedRow) (h : now - s.last_update < 0.1) :
    DepartureBoardState.update s now vals = s ∧
    ∀ i : ℕ, (DepartureBoardState.update s now vals).rows.get? i = s.rows.get? i := by
  have he : DepartureBoardState.update s now vals = s := by
    rw [DepartureBoardState.update, if_pos h]
  exact ⟨he, fun i => by rw [he]⟩

/-- A departure board whose last update happened at time `0`. -/
def c6State : DepartureBoardState := { rows := [initRow], last_update := 0 }

/-- Witness for C6: a second call 0.05 s later is a no-op. -/
theorem c6_rate_limited_update_noop_witness :
    DepartureBoardState.update c6State (1/20) [] = c6State :=
  (c6_rate_limited_update_noop c6State (1/20) [] (by norm_num [c6State])).1

/-- C7: every field of the configuration snapshot that is missing falls
back to its documented default: `use_12h_format = false`,
`show_seconds = true`, `scale = 0.85`, `spacing = 0.04`,
`corner_radius = 8`, `animation_speed = 600` ms. -/
theorem c7_missing_fields_fall_back_to_defaults (p : PartialAppConfig) :
    (p.use_12h_format = none → (AppConfig.fromPartial p).use_12h_format = false) ∧
    (p.show_seconds = none → (AppConfig.fromPartial p).show_seconds = true) ∧
    (p.scale = none → (AppConfig.fromPartial p).scale = 0.85) ∧
    (p.spacing = none → (AppConfig.fromPartial p).spacing = 0.04) ∧
    (p.corner_radius = none → (AppConfig.fromPartial p).corner_radius = 8) ∧
    (p.animation_speed = none → (AppConfig.fromPartial p).animation_speed = 600) := by
  refine ⟨fun h => ?_, fun h => ?_, fun h => ?_, fun h => ?_, fun h => ?_, fun h => ?_⟩ <;>
    simp [AppConfig.fromPartial, h, default_false, default_true, default_scale,
      default_spacing, default_corner_radius, default_animation_speed] <;>
    norm_num

/-- A configuration snapshot from which every defaultable field is absent. -/
def c7Partial : PartialAppConfig :=
  { selected_monitor := ("")
    use_12h_format := none
    show_seconds := none
    pixelated := none
    scale := none
    spacing := none
    corner_radius := none
    bg_color := none
    card_color := none
    text_color := none
    animation_speed := none }

/-- Witness for C7: loading the all-absent snapshot yields the documented
defaults. -/
theorem c7_missing_fields_fall_back_to_defaults_witness :
    (AppConfig.fromPartial c7Partial).use_12h_format = false ∧
    (AppConfig.fromPartial c7Partial).show_seconds = true ∧
    (AppConfig.fromPartial c7Partial).scale = 0.85 ∧
    (AppConfig.fromPartial c7Partial).spacing = 0.04 ∧
    (AppConfig.fromPartial c7Partial).corner_radius = 8 ∧
    (AppConfig.fromPartial c7Partial).animation_speed = 600 := by
  have h := c7_missing_fields_fall_back_to_defaults c7Partial
  exact ⟨h.1 rfl, h.2.1 rfl, h.2.2.1 rfl, h.2.2.2.1 rfl, h.2.2.2.2.1 rfl, h.2.2.2.2.2 rfl⟩

/-- A reachable mid-animation clock state: the last digit is flipping from
3 to 4, the animation started at time `0`. -/
def c8MidState : ClockState :=
  { current_digits := [("1"), ("2"), ("3"), ("4")]
    current_seconds := [("0"), ("0")]
    previous_digits := [("1"), ("2"), ("3"), ("3")]
    previous_seconds := [("0"), ("0")]
    animation_start := some 0 }

/-- C8 counterexample: at the mid-animation state `c8MidState`, calling
`update` with values equal to `current` is indeed a no-op, but the rendered
progress of the still-flipping cell 3 is `1/2`, not the claimed `1.0` —
the "progress is 1.0 for every cell" half of the claim fails for states
whose own animation is still in flight. -/
theorem c8_progress_not_one_mid_animation :
    ClockState.update c8MidState c8MidState.current_digits
      c8MidState.current_seconds (3/10) = c8MidState ∧
    (drawClockCellProgresses c8MidState (3/10) 600).get? 3 = some (1/2) ∧
    ¬ ((drawClockCellProgresses c8MidState (3/10) 600).get? 3 = some 1) := by
  have h : (drawClockCellProgresses c8MidState (3/10) 600).get? 3 = some (1/2) := by
    norm_num [drawClockCellProgresses, clockFaceSettle, clockFaceRawProgress, c8MidState]
    decide
  refine ⟨by decide, h, ?_⟩
  rw [h]
  intro hEq
  have h2 : (1/2 : ℚ) = 1 := Option.some.inj hEq
  norm_num at h2

/-- C8 (amended): calling `update` with freshly computed values equal to
the current ones is always a complete no-op (no animation starts, nothing
changes) — in `ClockState` and in the `rust_flip-rs` `TimeState` alike —
and whenever additionally each cell's previous value equals its current
value (in particular in every idle, settled state) the rendered progress is
`1.0` for every cell both before and after the call. -/
theorem c8_equal_update_is_noop (s : ClockState)
    (newDigits newSeconds : List String) (now duration : ℚ)
    (hd : newDigits = s.current_digits) (hs : newSeconds = s.current_seconds) :
    ClockState.update s newDigits newSeconds now = s ∧
    (s.previous_digits = s.current_digits →
      ∀ p ∈ drawClockCellProgresses s now duration, p = 1) ∧
    (s.previous_seconds = s.current_seconds →
      ∀ p ∈ drawClockSecondsProgresses s now duration, p = 1) ∧
    ∀ t : TimeState, TimeState.update t t.current_digits now = t := by
  refine ⟨?_, ?_, ?_, ?_⟩
  · simp [ClockState.update, hd, hs]
  · intro hpc
    rcases clockFaceSettle_spec s now duration with h | ⟨h, _⟩
    · rw [drawClockCellProgresses, h, hpc]
      exact zipWith_ite_self_eq_one _ _
    · rw [drawClockCellProgresses, h]
      exact zipWith_ite_self_eq_one _ _
  · intro hpc
    rcases clockFaceSettle_spec s now duration with h | ⟨h, _⟩
    · rw [drawClockSecondsProgresses, h, hpc]
      exact zipWith_ite_self_eq_one _ _
    · rw [drawClockSecondsProgresses, h]
      exact zipWith_ite_self_eq_one _ _
  · intro t
    simp [TimeState.update]

/-- An idle, settled clock state. -/
def c8IdleState : ClockState :=
  { current_digits := [("1"), ("2"), ("3"), ("4")]
    current_seconds := [("0"), ("0")]
    previous_digits := [("1"), ("2"), ("3"), ("4")]
    previous_seconds := [("0"), ("0")]
    animation_start := none }

/-- Witness for C8 at the concrete idle state. -/
theorem c8_equal_update_is_noop_witness :
    ClockState.update c8IdleState c8IdleState.current_digits
      c8IdleState.current_seconds 1 = c8IdleState :=
  (c8_equal_update_is_noop c8IdleState c8IdleState.current_digits
    c8IdleState.current_seconds 1 600 rfl rfl).1

/-- `rowUpdate` treats `anim_start` monotonically: it either leaves it
unchanged or starts a fresh animation `some now`, and when an animation is
already in flight it never touches the field at all. -/
lemma rowUpdate_anim_start (c : ComputedRow) (now : ℚ) (r : RowState) :
    ((rowUpdate c now r).anim_start = r.anim_start ∨
      (rowUpdate c now r).anim_start = some now) ∧
    (r.anim_start.isSome = true → (rowUpdate c now r).anim_start = r.anim_start) := by
  by_cases hch : (r.time_str ≠ c.time_str ∨ r.ampm ≠ c.ampm ∨ r.day ≠ c.day)
  · cases ha : r.anim_start with
    | none =>
      constructor
      · right
        simp [rowUpdate, hch, ha]
      · intro hsome
        simp at hsome
    | some t =>
      constructor
      · left
        simp [rowUpdate, hch, ha]
      · intro _
        simp [rowUpdate, hch, ha]
  · constructor
    · left
      simp [rowUpdate, hch]
    · intro _
      simp [rowUpdate, hch]

/-- C9: no departure-board operation ever clears a row's `anim_start`:
`update` either leaves the field untouched (always so once it is `Some`)
or assigns the fresh `some now`, it preserves the number of rows, and
`draw_departure_board` does not mutate the state at all. -/
theorem c9_anim_start_never_cleared (s : DepartureBoardState) (now : ℚ)
    (vals : List ComputedRow) (i : ℕ) (r r' : RowState)
    (hlen : vals.length = s.rows.length)
    (hr : s.rows.get? i = some r)
    (hr' : (DepartureBoardState.update s now vals).rows.get? i = some r') :
    drawDepartureBoardState s = s ∧
    (DepartureBoardState.update s now vals).rows.length = s.rows.length ∧
    (r'.anim_start = r.anim_start ∨ r'.anim_start = some now) ∧
    (r.anim_start.isSome = true → r'.anim_start = r.anim_start) := by
  by_cases hlim : now - s.last_update < 0.1
  · have hu : DepartureBoardState.update s now vals = s := by
      rw [DepartureBoardState.update, if_pos hlim]
    rw [hu, hr] at hr'
    have hrr : r = r' := Option.some.inj hr'
    subst hrr
    exact ⟨rfl, by rw [hu], Or.inl rfl, fun _ => rfl⟩
  · have hu : DepartureBoardState.update s now vals =
        { rows := List.zipWith (fun c r => rowUpdate c now r) vals s.rows
          last_update := now } := by
      rw [DepartureBoardState.update, if_neg hlim]
    rw [hu] at hr'
    obtain ⟨v, r0, hv, hr0, hfr⟩ := (List.get?_zipWith_eq_some _ _ _ _ _).mp hr'
    rw [hr] at hr0
    have hrr : r = r0 := Option.some.inj hr0
    subst hrr
    have hx := rowUpdate_anim_start v now r
    rw [hfr] at hx
    refine ⟨rfl, ?_, hx.1, hx.2⟩
    have hrows : (DepartureBoardState.update s now vals).rows =
        List.zipWith (fun c r => rowUpdate c now r) vals s.rows := by
      rw [hu]
    rw [hrows, List.length_zipWith, hlen, min_self]

/-- A one-row board whose single row has an animation in flight. -/
def c9Row : RowState :=
  { time_str := (" 1:00"), prev_time_str := ("12:59")
    ampm := ("PM"), prev_ampm := ("PM")
    day := ("TUE"), prev_day := ("TUE")
    anim_start := some 0 }

/-- New values for the single row of `c9Board`. -/
def c9New : ComputedRow := { time_str := (" 1:01"), ampm := ("PM"), day := ("TUE") }

/-- A departure board containing just `c9Row`, last updated at time `0`. -/
def c9Board : DepartureBoardState := { rows := [c9Row], last_update := 0 }

/-- Witness for C9 on the concrete one-row board at `now = 1`. -/
theorem c9_anim_start_never_cleared_witness :
    drawDepartureBoardState c9Board = c9Board ∧
    (DepartureBoardState.update c9Board 1 [c9New]).rows.length = c9Board.rows.length ∧
    ((rowUpdate c9New 1 c9Row).anim_start = c9Row.anim_start ∨
      (rowUpdate c9New 1 c9Row).anim_start = some 1) ∧
    (c9Row.anim_start.isSome = true →
      (rowUpdate c9New 1 c9Row).anim_start = c9Row.anim_start) := by
  refine c9_anim_start_never_cleared c9Board 1 [c9New] 0 c9Row (rowUpdate c9New 1 c9Row)
    rfl rfl ?_
  have hcond : ¬ ((1 : ℚ) - c9Board.last_update < 0.1) := by
    norm_num [c9Board]
  rw [DepartureBoardState.update, if_neg hcond]
  rfl

/-- The formatted time string is always 5 characters with the colon at
index 2, for any 12-hour value and any minute below 60 (finite check over
all 13 × 60 candidate pairs). -/
lemma formatTime_ok (h m : ℕ) (h1 : 1 ≤ h) (h2 : h ≤ 12) (hm : m ≤ 59) :
    TimeStrOK (formatTime h m) := by
  have key : ∀ hh : Fin 13, ∀ mm : Fin 60,
      1 ≤ hh.val → TimeStrOK (formatTime hh.val mm.val) := by decide
  exact key ⟨h, by omega⟩ ⟨m, by omega⟩ h1

/-- chrono's `hour12()` always lands in `1..=12`. -/
lemma hour12_bounds (hour : ℕ) : 1 ≤ hour12 hour ∧ hour12 hour ≤ 12 := by
  simp only [hour12]
  split_ifs with h
  · exact ⟨by norm_num, le_refl 12⟩
  · have hlt : hour % 12 < 12 := Nat.mod_lt _ (by norm_num)
    omega

/-- `rowUpdate` preserves the time-string invariant, provided the freshly
computed string satisfies it. -/
lemma rowUpdate_time_ok (c : ComputedRow) (now : ℚ) (r : RowState)
    (hv : TimeStrOK c.time_str)
    (h1 : TimeStrOK r.time_str) (h2 : TimeStrOK r.prev_time_str) :
    TimeStrOK (rowUpdate c now r).time_str ∧
    TimeStrOK (rowUpdate c now r).prev_time_str := by
  by_cases hch : (r.time_str ≠ c.time_str ∨ r.ampm ≠ c.ampm ∨ r.day ≠ c.day)
  · cases ha : r.anim_start with
    | none =>
      refine ⟨?_, ?_⟩
      · simpa [rowUpdate, hch, ha] using hv
      · simpa [rowUpdate, hch, ha] using h1
    | some t =>
      refine ⟨?_, ?_⟩
      · simpa [rowUpdate, hch, ha] using h1
      · simpa [rowUpdate, hch, ha] using h1
  · refine ⟨?_, ?_⟩
    · simpa [rowUpdate, hch] using h1
    · simpa [rowUpdate, hch] using h2

/-- `DepartureBoardState::update` preserves the time-string invariant. -/
lemma update_state_time_ok (s : DepartureBoardState) (now : ℚ)
    (vals : List ComputedRow)
    (hvals : ∀ v ∈ vals, TimeStrOK v.time_str) (hs : StateTimeOK s) :
    StateTimeOK (DepartureBoardState.update s now vals) := by
  by_cases hlim : now - s.last_update < 0.1
  · rw [DepartureBoardState.update, if_pos hlim]
    exact hs
  · rw [DepartureBoardState.update, if_neg hlim]
    intro r' hr'
    obtain ⟨v, r0, hv, hr0, hfr⟩ :=
      exists_of_mem_zipWith _ vals s.rows r' hr'
    rw [hfr]
    exact rowUpdate_time_ok v now r0 (hvals v hv) (hs r0 hr0).1 (hs r0 hr0).2

/-- `DepartureBoardState::new` establishes the time-string invariant. -/
lemma newBoard_state_time_ok (now : ℚ) (vals : List ComputedRow)
    (hvals : ∀ v ∈ vals, TimeStrOK v.time_str) :
    StateTimeOK (DepartureBoardState.newBoard now vals) := by
  have h0 : StateTimeOK { rows := CITIES.map (fun _ => initRow), last_update := 0 } := by
    intro r hr
    simp only [List.mem_map] at hr
    obtain ⟨_, _, hEq⟩ := hr
    rw [← hEq]
    exact ⟨by decide, by decide⟩
  have h1 := update_state_time_ok _ now vals hvals h0
  intro r hr
  simp only [DepartureBoardState.newBoard, List.mem_map] at hr
  obtain ⟨r0, hr0, hEq⟩ := hr
  have hok := h1 r0 hr0
  rw [← hEq]
  constructor
  · simpa [rowSnapPrev] using hok.1
  · simpa [rowSnapPrev] using hok.1

/-- C10: every `time_str` (and `prev_time_str`) a departure-board row can
ever hold is exactly 5 characters with the colon at index 2 — the initial
placeholder satisfies this, the formatter `{:>2}:{:02}` produces only such
strings for 12-hour values and minutes below 60, construction and every
update preserve the invariant, and such a string can be indexed at any
position `0..4` without running past its end. -/
theorem c10_time_str_always_wellformed :
    (∀ h m : ℕ, 1 ≤ h → h ≤ 12 → m ≤ 59 → TimeStrOK (formatTime h m)) ∧
    (∀ hour m : ℕ, m ≤ 59 → TimeStrOK (computedTimeStr hour m)) ∧
    (TimeStrOK initRow.time_str ∧ TimeStrOK initRow.prev_time_str) ∧
    (∀ (vals : List ComputedRow) (now : ℚ) (s : DepartureBoardState),
      (∀ v ∈ vals, TimeStrOK v.time_str) → StateTimeOK s →
      StateTimeOK (DepartureBoardState.update s now vals)) ∧
    (∀ (vals : List ComputedRow) (now : ℚ),
      (∀ v ∈ vals, TimeStrOK v.time_str) →
      StateTimeOK (DepartureBoardState.newBoard now vals)) ∧
    (∀ str : String, TimeStrOK str →
      ∀ j : ℕ, j < 5 → (str.data.get? j).isSome = true) := by
  refine ⟨formatTime_ok, ?_, ⟨by decide, by decide⟩, ?_, ?_, ?_⟩
  · intro hour m hm
    exact formatTime_ok (hour12 hour) m (hour12_bounds hour).1 (hour12_bounds hour).2 hm
  · intro vals now s hv hs
    exact update_state_time_ok s now vals hv hs
  · intro vals now hv
    exact newBoard_state_time_ok now vals hv
  · intro str hstr j hj
    cases hg : str.data.get? j with
    | some v => rfl
    | none =>
      exfalso
      have hge : str.data.length ≤ j := List.get?_eq_none.mp hg
      have hlen : str.data.length = 5 := hstr.1
      omega

/-- Witness for C10 at the largest formatted value. -/
theorem c10_time_str_always_wellformed_witness :
    TimeStrOK (formatTime 12 59) :=
  c10_time_str_always_wellformed.1 12 59 (by norm_num) (by norm_num) (by norm_num)

/-- Witness for C4 at the concrete narrow rectangle and configuration. -/
theorem c4_layout_centered_and_fits_witness :
    (clockStartX c4Config c4Rect + clockTotalWidth c4Config c4Rect ≤
        c4Rect.x + c4Rect.w ↔ clockTotalWidth c4Config c4Rect ≤ c4Rect.w) ∧
    clockStartX c4Config c4Rect - c4Rect.x =
      (c4Rect.x + c4Rect.w) -
        (clockStartX c4Config c4Rect + clockTotalWidth c4Config c4Rect) :=
  c4_layout_centered_and_fits c4Config c4Rect

/-- Witness for C5 at the concrete 1920×1080 surface with defaults. -/
theorem c5_layout_formulas_witness :
    clockCardHeight c5Config c5Rect = c5Rect.h * 0.4 * c5Config.scale ∧
    clockCardWidth c5Config c5Rect = clockCardHeight c5Config c5Rect * 0.6 ∧
    clockSpacing c5Config c5Rect = clockCardWidth c5Config c5Rect * c5Config.spacing ∧
    clockGroupGap c5Config c5Rect = clockSpacing c5Config c5Rect * 3 ∧
    depCardWidth c5Config c5Rect 10 = depCardHeight c5Config c5Rect 10 * 0.6 ∧
    depSpacing c5Config c5Rect 10 = depCardWidth c5Config c5Rect 10 * 0.1 ∧
    depCardHeight c5Config c5Rect 10 = depRowHeight c5Config c5Rect 10 * 0.8 :=
  c5_layout_formulas c5Config c5Rect 10
